import Mathlib

/-!
Shallow embedding of the resource-lifecycle controller in
`src/spark_manager.py` (class `KubeSparkManager`).

The Kubernetes API is modelled as an oracle: each call site receives a
`KResult` saying whether that particular call succeeded or raised an
`ApiException` with a given HTTP status code.  The controller functions are
translated line by line from the Python source; each returns, besides its
result, the trace of API operations it attempted, so that claims about how
many creates/deletes happen and in which order are statements about the
trace.
-/

namespace SparkManager

/-- Outcome of one Kubernetes API call: success, or an `ApiException`
carrying an HTTP status code (`e.status` in the source). -/
inductive KResult where
  | ok
  | apiErr (status : Nat)
deriving DecidableEq, Repr

/-- One Kubernetes API operation, recorded in traces. -/
inductive K8sOp where
  | createDeployment (name : String)
  | deleteDeployment (name : String)
  | createService (name : String)
  | deleteService (name : String)
deriving DecidableEq, Repr

/-- Oracle for one create-or-replace invocation: the result the API would
give to the first create, to the delete, and to the second create (the
latter two are consulted only if the corresponding call is made). -/
structure ReconcileOracle where
  firstCreate : KResult
  delete : KResult
  secondCreate : KResult
deriving DecidableEq, Repr

/-- `KubeSparkManager._create_or_replace_deployment` (src/spark_manager.py
lines 364-402).  Try create; on `ApiException` with status 409 delete the
same-named deployment and create once more, re-raising whatever the inner
try raises; any non-409 error from the first create is re-raised at once.
Returns the trace of attempted operations and either success or the status
of the raised `ApiException`. -/
def create_or_replace_deployment (name : String) (o : ReconcileOracle) :
    List K8sOp × Except Nat Unit :=
  match o.firstCreate with
  | .ok => ([.createDeployment name], .ok ())
  | .apiErr s =>
    if s = 409 then
      match o.delete with
      | .apiErr ds => ([.createDeployment name, .deleteDeployment name], .error ds)
      | .ok =>
        match o.secondCreate with
        | .ok =>
          ([.createDeployment name, .deleteDeployment name, .createDeployment name], .ok ())
        | .apiErr s2 =>
          ([.createDeployment name, .deleteDeployment name, .createDeployment name], .error s2)
    else
      ([.createDeployment name], .error s)

/-- `KubeSparkManager._create_or_replace_service` (src/spark_manager.py
lines 324-362): textually the same protocol as the deployment variant but
against the service API. -/
def create_or_replace_service (name : String) (o : ReconcileOracle) :
    List K8sOp × Except Nat Unit :=
  match o.firstCreate with
  | .ok => ([.createService name], .ok ())
  | .apiErr s =>
    if s = 409 then
      match o.delete with
      | .apiErr ds => ([.createService name, .deleteService name], .error ds)
      | .ok =>
        match o.secondCreate with
        | .ok =>
          ([.createService name, .deleteService name, .createService name], .ok ())
        | .apiErr s2 =>
          ([.createService name, .deleteService name, .createService name], .error s2)
    else
      ([.createService name], .error s)

/-- Is this operation a create (of either resource kind)? -/
def K8sOp.isCreate : K8sOp → Bool
  | .createDeployment _ => true
  | .createService _ => true
  | _ => false

/-- Is this operation a delete (of either resource kind)? -/
def K8sOp.isDelete : K8sOp → Bool
  | .deleteDeployment _ => true
  | .deleteService _ => true
  | _ => false

/-- Number of create attempts in a trace. -/
def createCount (ops : List K8sOp) : Nat := (ops.filter K8sOp.isCreate).length

/-- Number of delete attempts in a trace. -/
def deleteCount (ops : List K8sOp) : Nat := (ops.filter K8sOp.isDelete).length

/-- The per-resource record built by `KubeSparkManager._attempt_delete`
(src/spark_manager.py lines 480-500): `{"deleted": ..., "resource_exists": ...}`. -/
structure DeletionRecord where
  deleted : Bool
  resource_exists : Bool
deriving DecidableEq, Repr

/-- `KubeSparkManager._attempt_delete` (lines 480-500).  The record starts
as `{deleted: False, resource_exists: True}`; a successful delete sets
`deleted`; an `ApiException` with status 404 sets `resource_exists = False`
and is swallowed; any other `ApiException` is re-raised (modelled as
`Except.error` carrying its status). -/
def attempt_delete (r : KResult) : Except Nat DeletionRecord :=
  match r with
  | .ok => .ok { deleted := true, resource_exists := true }
  | .apiErr s =>
    if s = 404 then .ok { deleted := false, resource_exists := false }
    else .error s

/-- The three deletion steps of `delete_cluster`, in source order of the
`deletion_results` dict literal (lines 505-521). -/
inductive DelStep where
  | workerDeployment
  | masterDeployment
  | masterService
deriving DecidableEq, Repr

/-- Oracle for one `delete_cluster` run: the API result each of the three
delete calls would receive. -/
structure DeleteOracle where
  workerDeployment : KResult
  masterDeployment : KResult
  masterService : KResult
deriving DecidableEq, Repr

/-- Error raised out of `delete_cluster`: a re-raised `ApiException` from
`_attempt_delete`, or the `ClusterDeletionError` raised on partially
completed deletion. -/
inductive DeleteClusterError where
  | api (status : Nat)
  | clusterDeletionError (msg : String)
deriving DecidableEq, Repr

/-- `resources_found` (lines 523-525): how many records have
`resource_exists` set. -/
def resources_found (rs : List DeletionRecord) : Nat :=
  (rs.filter (·.resource_exists)).length

/-- `resources_deleted` (lines 526-528): how many records have `deleted`
set. -/
def resources_deleted (rs : List DeletionRecord) : Nat :=
  (rs.filter (·.deleted)).length

/-- The classification tail of `delete_cluster` (lines 523-543): given the
three per-resource records, count found/deleted and either return the
status message or raise `ClusterDeletionError`. -/
def classify_deletion (username : String)
    (worker master service : DeletionRecord) : Except DeleteClusterError String :=
  let rs := [worker, master, service]
  let found := resources_found rs
  let deleted := resources_deleted rs
  if found = 0 then
    .ok ("No Spark cluster resources found for user " ++ username)
  else if deleted = found then
    .ok ("Spark cluster for user " ++ username ++ " deleted successfully")
  else
    .error (.clusterDeletionError
      ("Spark cluster deletion partially completed for user " ++ username))

/-- `KubeSparkManager.delete_cluster` (lines 502-547).  The three
`_attempt_delete` calls run in the order of the dict literal — worker
deployment, master deployment, master service — and a re-raised
`ApiException` aborts the rest (the outer `except` only logs and
re-raises).  Returns the list of steps whose delete call was attempted
together with the outcome. -/
def delete_cluster (username : String) (o : DeleteOracle) :
    List DelStep × Except DeleteClusterError String :=
  match attempt_delete o.workerDeployment with
  | .error s => ([.workerDeployment], .error (.api s))
  | .ok rw =>
    match attempt_delete o.masterDeployment with
    | .error s => ([.workerDeployment, .masterDeployment], .error (.api s))
    | .ok rm =>
      match attempt_delete o.masterService with
      | .error s =>
        ([.workerDeployment, .masterDeployment, .masterService], .error (.api s))
      | .ok rs =>
        ([.workerDeployment, .masterDeployment, .masterService],
          classify_deletion username rw rm rs)

/-- The raw `deployment.status` payload as read by
`_get_deployment_status`: four replica counters, each possibly absent/None
(the source reads them with `getattr(..., 0) or 0`). -/
structure RawDeploymentStatus where
  replicas : Option Nat
  ready_replicas : Option Nat
  available_replicas : Option Nat
  unavailable_replicas : Option Nat
deriving DecidableEq, Repr

/-- Outcome of the `read_namespaced_deployment` call inside
`_get_deployment_status`: the read returns an object whose `status`
attribute may be `None`, or it raises.  A not-found raises
`ApiException(status=404)` whose `str(e)` is `msg`; any other exception is
`otherExn msg` with `str(e) = msg`.  The source's handler
(`except Exception as e`) treats both alike. -/
inductive ReadResult where
  | found (status : Option RawDeploymentStatus)
  | notFound (msg : String)
  | otherExn (msg : String)
deriving DecidableEq, Repr

/-- `DeploymentStatus` pydantic model.  Modelled from the spec:
`src/service/models.py` is not part of the supplied sources; the field set
and the defaults (counts 0, flags false, error absent) follow the spec's
ResourceStatus data model and the constructor call
`DeploymentStatus(exists=False)` at src/spark_manager.py line 437. -/
structure DeploymentStatus where
  «exists» : Bool := false
  replicas : Nat := 0
  ready_replicas : Nat := 0
  available_replicas : Nat := 0
  unavailable_replicas : Nat := 0
  is_ready : Bool := false
  error : Option String := none
deriving DecidableEq, Repr

/-- `KubeSparkManager._get_deployment_status` (src/spark_manager.py lines
432-478).  Start from `DeploymentStatus(exists=False)`; on a successful
read set `exists`, bail out with an error string if the status payload is
`None`, otherwise copy the four counters (defaulting `None` to 0) and
compute `is_ready`; any exception — including the 404 `ApiException` of a
missing deployment — is caught by the blanket `except Exception` handler,
which records `str(e)` in `error`. -/
def get_deployment_status (r : ReadResult) : DeploymentStatus :=
  match r with
  | .found none =>
    { «exists» := true, error := some "Deployment status is None" }
  | .found (some s) =>
    let available := s.available_replicas.getD 0
    let ready := s.ready_replicas.getD 0
    let reps := s.replicas.getD 0
    let unavailable := s.unavailable_replicas.getD 0
    { «exists» := true
      replicas := reps
      ready_replicas := ready
      available_replicas := available
      unavailable_replicas := unavailable
      is_ready := decide (ready = reps ∧ reps > 0) }
  | .notFound msg => { «exists» := false, error := some msg }
  | .otherExn msg => { «exists» := false, error := some msg }

/-- `SparkClusterStatus` pydantic model.  Modelled from the spec:
`src/service/models.py` is not part of the supplied sources; fields follow
the spec's ClusterStatus data model and the constructor call at
src/spark_manager.py lines 422-428. -/
structure SparkClusterStatus where
  master : DeploymentStatus
  workers : DeploymentStatus
  master_url : Option String
  master_ui_url : Option String
  error : Bool
deriving DecidableEq, Repr

/-- Python truthiness of an optional error string:
`bool(x)` is `False` for `None` and for the empty string. -/
def optStrTruthy : Option String → Bool
  | none => false
  | some s => !s.isEmpty

/-- `bool(master_status.error or worker_status.error)`
(src/spark_manager.py line 427): `or` returns the first truthy operand, so
the result is the disjunction of the two truthiness values. -/
def errorFlag (m w : Option String) : Bool := optStrTruthy m || optStrTruthy w

/-- `KubeSparkManager.get_cluster_status` (src/spark_manager.py lines
404-430).  Reads the master and the worker deployment status (both reads
always happen; `_get_deployment_status` never raises), fills the URLs only
when the master has ready replicas, and sets the error flag from the two
sub-statuses. -/
def get_cluster_status (master_name ns : String)
    (masterRead workerRead : ReadResult) : SparkClusterStatus :=
  let master_status := get_deployment_status masterRead
  let worker_status := get_deployment_status workerRead
  let master_url :=
    if master_status.ready_replicas > 0 then
      some ("spark://" ++ master_name ++ "." ++ ns ++ ":7077")
    else none
  let master_ui_url :=
    if master_status.ready_replicas > 0 then
      some ("http://" ++ master_name ++ "." ++ ns ++ ":8090")
    else none
  { master := master_status
    workers := worker_status
    master_url := master_url
    master_ui_url := master_ui_url
    error := errorFlag master_status.error worker_status.error }

/-!
## Theorems
-/

/-- C1: for every create-or-replace invocation (deployment or service):
a 409 conflict on the first create (with the delete succeeding) yields the
trace create-delete-create — two creates, one delete — and a failure of the
second create is surfaced unchanged; a successful first create yields a
single create and no delete; a non-409 error from the first create is
propagated at once with no delete; and if the intermediate delete fails,
the second create is never attempted and the delete's error is surfaced. -/
theorem C1_create_or_replace_protocol (name : String) (o : ReconcileOracle) :
    (o.firstCreate = .ok →
      create_or_replace_deployment name o = ([.createDeployment name], .ok ()) ∧
      create_or_replace_service name o = ([.createService name], .ok ())) ∧
    (∀ s, o.firstCreate = .apiErr s → s ≠ 409 →
      create_or_replace_deployment name o = ([.createDeployment name], .error s) ∧
      create_or_replace_service name o = ([.createService name], .error s)) ∧
    (o.firstCreate = .apiErr 409 → o.delete = .ok →
      (create_or_replace_deployment name o).1 =
        [.createDeployment name, .deleteDeployment name, .createDeployment name] ∧
      (create_or_replace_service name o).1 =
        [.createService name, .deleteService name, .createService name] ∧
      createCount (create_or_replace_deployment name o).1 = 2 ∧
      deleteCount (create_or_replace_deployment name o).1 = 1 ∧
      createCount (create_or_replace_service name o).1 = 2 ∧
      deleteCount (create_or_replace_service name o).1 = 1 ∧
      (∀ s2, o.secondCreate = .apiErr s2 →
        (create_or_replace_deployment name o).2 = .error s2 ∧
        (create_or_replace_service name o).2 = .error s2) ∧
      (o.secondCreate = .ok →
        (create_or_replace_deployment name o).2 = .ok () ∧
        (create_or_replace_service name o).2 = .ok ())) ∧
    (∀ ds, o.firstCreate = .apiErr 409 → o.delete = .apiErr ds →
      create_or_replace_deployment name o =
        ([.createDeployment name, .deleteDeployment name], .error ds) ∧
      create_or_replace_service name o =
        ([.createService name, .deleteService name], .error ds)) := by
  obtain ⟨c1, d, c2⟩ := o
  refine ⟨?_, ?_, ?_, ?_⟩
  · rintro rfl
    exact ⟨rfl, rfl⟩
  · rintro s rfl hne
    simp [create_or_replace_deployment, create_or_replace_service, hne]
  · rintro rfl rfl
    cases c2 with
    | ok =>
      simp [create_or_replace_deployment, create_or_replace_service,
        createCount, deleteCount, K8sOp.isCreate, K8sOp.isDelete]
    | apiErr s2 =>
      simp [create_or_replace_deployment, create_or_replace_service,
        createCount, deleteCount, K8sOp.isCreate, K8sOp.isDelete]
  · rintro ds rfl rfl
    simp [create_or_replace_deployment, create_or_replace_service]

/-- Witness for C1: concrete conflict run whose second create fails with
status 500 — two creates, one delete, and the 500 surfaced unchanged. -/
theorem C1_witness :
    createCount (create_or_replace_deployment "dep"
      ⟨.apiErr 409, .ok, .apiErr 500⟩).1 = 2 ∧
    deleteCount (create_or_replace_deployment "dep"
      ⟨.apiErr 409, .ok, .apiErr 500⟩).1 = 1 ∧
    (create_or_replace_deployment "dep" ⟨.apiErr 409, .ok, .apiErr 500⟩).2 =
      .error 500 := by
  have h :=
    (C1_create_or_replace_protocol "dep" ⟨.apiErr 409, .ok, .apiErr 500⟩).2.2.1 rfl rfl
  exact ⟨h.2.2.1, h.2.2.2.1, (h.2.2.2.2.2.2.1 500 rfl).1⟩

/-- Helper: any record `_attempt_delete` returns without raising is either
`{deleted: true, resource_exists: true}` (successful delete) or
`{deleted: false, resource_exists: false}` (404). -/
theorem attempt_delete_ok_cases (r : KResult) (rec : DeletionRecord)
    (h : attempt_delete r = .ok rec) :
    rec = ⟨true, true⟩ ∨ rec = ⟨false, false⟩ := by
  cases r with
  | ok =>
    left
    simpa [attempt_delete] using h.symm
  | apiErr s =>
    by_cases h404 : s = 404
    · right
      subst h404
      simpa [attempt_delete] using h.symm
    · simp [attempt_delete, h404] at h

/-- Helper: when every deleted resource was found and vice versa, the
classification tail returns a success message and never raises. -/
theorem classify_deletion_of_deleted_eq_found (username : String)
    (w m s : DeletionRecord)
    (h : resources_deleted [w, m, s] = resources_found [w, m, s]) :
    ∃ msg, classify_deletion username w m s = .ok msg := by
  by_cases h0 : resources_found [w, m, s] = 0
  · exact ⟨"No Spark cluster resources found for user " ++ username,
      by simp [classify_deletion, h0]⟩
  · exact ⟨"Spark cluster for user " ++ username ++ " deleted successfully",
      by simp [classify_deletion, h0, h]⟩

/-- C2: in a run of `delete_cluster` where all three per-resource attempts
return records `w`, `m`, `s`, the outcome is the classification of those
records; the classification succeeds with the "no resources found" message
when the found count is 0, succeeds with a message containing
"deleted successfully" when the deleted count equals a positive found
count, and raises the dedicated `ClusterDeletionError` when the deleted
count is strictly between 0 and the found count. -/
theorem C2_delete_cluster_outcome (username : String) (o : DeleteOracle)
    (w m s : DeletionRecord) :
    (attempt_delete o.workerDeployment = .ok w →
     attempt_delete o.masterDeployment = .ok m →
     attempt_delete o.masterService = .ok s →
      (delete_cluster username o).2 = classify_deletion username w m s) ∧
    (resources_found [w, m, s] = 0 →
      classify_deletion username w m s =
        .ok ("No Spark cluster resources found for user " ++ username)) ∧
    (0 < resources_found [w, m, s] →
     resources_deleted [w, m, s] = resources_found [w, m, s] →
      ∃ a b, classify_deletion username w m s = .ok (a ++ "deleted successfully" ++ b)) ∧
    (0 < resources_deleted [w, m, s] →
     resources_deleted [w, m, s] < resources_found [w, m, s] →
      classify_deletion username w m s =
        .error (.clusterDeletionError
          ("Spark cluster deletion partially completed for user " ++ username))) := by
  refine ⟨?_, ?_, ?_, ?_⟩
  · intro h1 h2 h3
    simp [delete_cluster, h1, h2, h3]
  · intro h0
    simp [classify_deletion, h0]
  · intro hpos heq
    refine ⟨"Spark cluster for user " ++ username ++ " ", "", ?_⟩
    have h0 : resources_found [w, m, s] ≠ 0 := Nat.pos_iff_ne_zero.mp hpos
    have hmsg : ("Spark cluster for user " ++ username ++ " ") ++
        "deleted successfully" ++ "" =
        "Spark cluster for user " ++ username ++ " deleted successfully" := by
      rw [String.append_empty, String.append_assoc, String.append_assoc]
      rfl
    rw [hmsg]
    simp [classify_deletion, h0, heq]
  · intro hpos hlt
    have h0 : resources_found [w, m, s] ≠ 0 :=
      Nat.pos_iff_ne_zero.mp (Nat.lt_of_lt_of_le hpos (Nat.le_of_lt hlt))
    have hne : resources_deleted [w, m, s] ≠ resources_found [w, m, s] :=
      Nat.ne_of_lt hlt
    simp [classify_deletion, h0, hne]

/-- Witness for C2: all three deletes succeed — the run classifies the
records, the message contains "deleted successfully"; and a record triple
with one deletion among three found resources raises the dedicated error. -/
theorem C2_witness :
    ((delete_cluster "alice" ⟨.ok, .ok, .ok⟩).2 =
      classify_deletion "alice" ⟨true, true⟩ ⟨true, true⟩ ⟨true, true⟩) ∧
    (∃ a b, classify_deletion "alice" ⟨true, true⟩ ⟨true, true⟩ ⟨true, true⟩ =
      .ok (a ++ "deleted successfully" ++ b)) ∧
    (classify_deletion "alice" ⟨true, true⟩ ⟨false, true⟩ ⟨false, true⟩ =
      .error (.clusterDeletionError
        ("Spark cluster deletion partially completed for user " ++ "alice"))) := by
  have h1 := C2_delete_cluster_outcome "alice" ⟨.ok, .ok, .ok⟩
    ⟨true, true⟩ ⟨true, true⟩ ⟨true, true⟩
  have h2 := C2_delete_cluster_outcome "alice" ⟨.ok, .ok, .ok⟩
    ⟨true, true⟩ ⟨false, true⟩ ⟨false, true⟩
  exact ⟨h1.1 rfl rfl rfl, h1.2.2.1 (by decide) (by decide),
    h2.2.2.2 (by decide) (by decide)⟩

/-- C3: deletions run in the fixed order worker deployment, master
deployment, master service: the attempted-step trace is always an initial
segment of that order; a 404 on a step yields the record
`{deleted: false, resource_exists: false}` and the run continues to the
next step, while a non-404 error is propagated immediately and cuts the
trace at the failing step. -/
theorem C3_delete_order_and_abort (username : String) (o : DeleteOracle) :
    ((delete_cluster username o).1 = [.workerDeployment] ∨
     (delete_cluster username o).1 = [.workerDeployment, .masterDeployment] ∨
     (delete_cluster username o).1 =
       [.workerDeployment, .masterDeployment, .masterService]) ∧
    (attempt_delete (.apiErr 404) =
      .ok { deleted := false, resource_exists := false }) ∧
    (∀ s, o.workerDeployment = .apiErr s → s ≠ 404 →
      delete_cluster username o = ([.workerDeployment], .error (.api s))) ∧
    (∀ w, attempt_delete o.workerDeployment = .ok w →
      DelStep.masterDeployment ∈ (delete_cluster username o).1) ∧
    (∀ w s, attempt_delete o.workerDeployment = .ok w →
      o.masterDeployment = .apiErr s → s ≠ 404 →
      delete_cluster username o =
        ([.workerDeployment, .masterDeployment], .error (.api s))) ∧
    (∀ w m, attempt_delete o.workerDeployment = .ok w →
      attempt_delete o.masterDeployment = .ok m →
      DelStep.masterService ∈ (delete_cluster username o).1) ∧
    (∀ w m s, attempt_delete o.workerDeployment = .ok w →
      attempt_delete o.masterDeployment = .ok m →
      o.masterService = .apiErr s → s ≠ 404 →
      (delete_cluster username o).2 = .error (.api s)) := by
  refine ⟨?_, by simp [attempt_delete], ?_, ?_, ?_, ?_, ?_⟩
  · cases h1 : attempt_delete o.workerDeployment with
    | error s => exact Or.inl (by simp [delete_cluster, h1])
    | ok w =>
      cases h2 : attempt_delete o.masterDeployment with
      | error s => exact Or.inr (Or.inl (by simp [delete_cluster, h1, h2]))
      | ok m =>
        cases h3 : attempt_delete o.masterService with
        | error s => exact Or.inr (Or.inr (by simp [delete_cluster, h1, h2, h3]))
        | ok sv => exact Or.inr (Or.inr (by simp [delete_cluster, h1, h2, h3]))
  · intro s hw hne
    simp [delete_cluster, attempt_delete, hw, hne]
  · intro w h1
    cases h2 : attempt_delete o.masterDeployment with
    | error s => simp [delete_cluster, h1, h2]
    | ok m =>
      cases h3 : attempt_delete o.masterService with
      | error s => simp [delete_cluster, h1, h2, h3]
      | ok sv => simp [delete_cluster, h1, h2, h3]
  · intro w s h1 hm hne
    have hm2 : attempt_delete o.masterDeployment = .error s := by
      simp [attempt_delete, hm, hne]
    simp [delete_cluster, h1, hm2]
  · intro w m h1 h2
    cases h3 : attempt_delete o.masterService with
    | error s => simp [delete_cluster, h1, h2, h3]
    | ok sv => simp [delete_cluster, h1, h2, h3]
  · intro w m s h1 h2 hs hne
    have hs2 : attempt_delete o.masterService = .error s := by
      simp [attempt_delete, hs, hne]
    simp [delete_cluster, h1, h2, hs2]

/-- Witness for C3: the worker deployment is absent (404) and the master
deployment delete fails with status 500 — the run records the worker as
not existing, continues to the master deployment, propagates the 500 there
and never attempts the master service. -/
theorem C3_witness :
    (attempt_delete (.apiErr 404) =
      .ok { deleted := false, resource_exists := false }) ∧
    DelStep.masterDeployment ∈
      (delete_cluster "alice" ⟨.apiErr 404, .apiErr 500, .ok⟩).1 ∧
    delete_cluster "alice" ⟨.apiErr 404, .apiErr 500, .ok⟩ =
      ([.workerDeployment, .masterDeployment], .error (.api 500)) := by
  have h := C3_delete_order_and_abort "alice" ⟨.apiErr 404, .apiErr 500, .ok⟩
  exact ⟨h.2.1,
    h.2.2.2.1 { deleted := false, resource_exists := false } rfl,
    h.2.2.2.2.1 { deleted := false, resource_exists := false } 500 rfl
      rfl (by decide)⟩

/-- C10 (implicit): `_attempt_delete` only ever returns the records
`{deleted: true, resource_exists: true}` or
`{deleted: false, resource_exists: false}`; hence in any `delete_cluster`
run in which all three attempts return, the deleted count equals the found
count, and the partial-deletion branch is unreachable: `delete_cluster`
never raises `ClusterDeletionError`. -/
theorem C10_partial_deletion_unreachable (username : String)
    (o : DeleteOracle) :
    (∀ r rec, attempt_delete r = .ok rec →
      rec = { deleted := true, resource_exists := true } ∨
      rec = { deleted := false, resource_exists := false }) ∧
    (∀ w m s, attempt_delete o.workerDeployment = .ok w →
      attempt_delete o.masterDeployment = .ok m →
      attempt_delete o.masterService = .ok s →
      resources_deleted [w, m, s] = resources_found [w, m, s]) ∧
    (∀ msg, (delete_cluster username o).2 ≠
      .error (.clusterDeletionError msg)) := by
  have hcount : ∀ w m s : DeletionRecord,
      attempt_delete o.workerDeployment = .ok w →
      attempt_delete o.masterDeployment = .ok m →
      attempt_delete o.masterService = .ok s →
      resources_deleted [w, m, s] = resources_found [w, m, s] := by
    intro w m s h1 h2 h3
    rcases attempt_delete_ok_cases _ _ h1 with rfl | rfl <;>
      rcases attempt_delete_ok_cases _ _ h2 with rfl | rfl <;>
      rcases attempt_delete_ok_cases _ _ h3 with rfl | rfl <;> decide
  refine ⟨fun r rec h => attempt_delete_ok_cases r rec h, hcount, ?_⟩
  intro msg
  cases h1 : attempt_delete o.workerDeployment with
  | error s => simp [delete_cluster, h1]
  | ok w =>
    cases h2 : attempt_delete o.masterDeployment with
    | error s => simp [delete_cluster, h1, h2]
    | ok m =>
      cases h3 : attempt_delete o.masterService with
      | error s => simp [delete_cluster, h1, h2, h3]
      | ok sv =>
        obtain ⟨okmsg, hok⟩ := classify_deletion_of_deleted_eq_found username
          w m sv (hcount w m sv h1 h2 h3)
        simp [delete_cluster, h1, h2, h3, hok]

/-- Witness for C10: with the worker delete succeeding and the two master
resources absent, the run returns records with deleted count equal to found
count and does not raise the partial-deletion error. -/
theorem C10_witness :
    resources_deleted
      [{ deleted := true, resource_exists := true },
       { deleted := false, resource_exists := false },
       { deleted := false, resource_exists := false }] =
    resources_found
      [{ deleted := true, resource_exists := true },
       { deleted := false, resource_exists := false },
       { deleted := false, resource_exists := false }] ∧
    (delete_cluster "alice" ⟨.ok, .apiErr 404, .apiErr 404⟩).2 ≠
      .error (.clusterDeletionError
        ("Spark cluster deletion partially completed for user " ++ "alice")) := by
  have h := C10_partial_deletion_unreachable "alice" ⟨.ok, .apiErr 404, .apiErr 404⟩
  exact ⟨h.2.1 _ _ _ rfl rfl rfl,
    h.2.2 ("Spark cluster deletion partially completed for user " ++ "alice")⟩

/-- C5 counterexample: a not-found read does NOT leave `error` null.
`_get_deployment_status` has no 404 special case: the `ApiException` lands
in the blanket `except Exception` handler, which stores `str(e)` in
`error`.  (The repository's own test `test_get_status_404_returns_not_exists`
asserts `status.error is not None` for this case.) -/
theorem C5_counterexample :
    get_deployment_status (.notFound "(404) Reason: Not Found") =
      { «exists» := false, replicas := 0, ready_replicas := 0,
        available_replicas := 0, unavailable_replicas := 0,
        is_ready := false, error := some "(404) Reason: Not Found" } ∧
    (get_deployment_status (.notFound "(404) Reason: Not Found")).error ≠
      none := by
  exact ⟨rfl, by simp [get_deployment_status]⟩

/-- C5 amended: a per-resource status read that hits a not-found signal
returns `{exists: false, all replica counts 0, is_ready: false}` with the
`error` field set to the exception's message (the 404 is caught by the
generic handler and recorded, not propagated). -/
theorem C5_notfound_status (msg : String) :
    get_deployment_status (.notFound msg) =
      { «exists» := false, replicas := 0, ready_replicas := 0,
        available_replicas := 0, unavailable_replicas := 0,
        is_ready := false, error := some msg } := rfl

/-- C6: on every path of `_get_deployment_status` — not-found, missing
status payload, populated payload (with missing/None counters defaulted to
0), or caught failure — the returned status satisfies
`is_ready ⇔ (replicas > 0 ∧ ready_replicas = replicas)`. -/
theorem C6_is_ready_invariant (r : ReadResult) :
    (get_deployment_status r).is_ready = true ↔
      (0 < (get_deployment_status r).replicas ∧
       (get_deployment_status r).ready_replicas =
         (get_deployment_status r).replicas) := by
  cases r with
  | found st =>
    cases st with
    | none => simp [get_deployment_status]
    | some s =>
      simp only [get_deployment_status, decide_eq_true_eq]
      constructor
      · rintro ⟨h1, h2⟩
        exact ⟨h2, h1⟩
      · rintro ⟨h1, h2⟩
        exact ⟨h2, h1⟩
  | notFound msg => simp [get_deployment_status]
  | otherExn msg => simp [get_deployment_status]

/-- C7 counterexample: the error flag is Python truthiness, not presence.
With a master read failing with an exception whose `str` is the empty
string, the master sub-status has `error` present (`some ""`), yet
`bool(master_status.error or worker_status.error)` is `False`, so the
cluster-level flag is not the OR of the two errors' presence. -/
theorem C7_counterexample :
    ((get_cluster_status "spark-master-alice" "ns" (.otherExn "")
        (.found (some ⟨some 1, some 1, some 1, some 0⟩))).master.error).isSome
      = true ∧
    (get_cluster_status "spark-master-alice" "ns" (.otherExn "")
        (.found (some ⟨some 1, some 1, some 1, some 0⟩))).error = false := by
  exact ⟨rfl, rfl⟩

/-- C7 amended: a cluster status query is a total function of the two read
outcomes (no exception escapes): any failure during a per-resource read is
recorded as a string in that resource's `error` field, the two resources
are read independently of one another, and the cluster-level `error` flag
is the OR of the two error strings' truthiness — an error equal to the
empty string counts as no error, matching `bool(x or y)` in the source. -/
theorem C7_status_never_raises (mn ns : String) (mr wr : ReadResult) :
    (∀ msg, get_deployment_status (.otherExn msg) =
      { «exists» := false, replicas := 0, ready_replicas := 0,
        available_replicas := 0, unavailable_replicas := 0,
        is_ready := false, error := some msg }) ∧
    ((get_cluster_status mn ns mr wr).master = get_deployment_status mr) ∧
    ((get_cluster_status mn ns mr wr).workers = get_deployment_status wr) ∧
    ((get_cluster_status mn ns mr wr).error =
      (optStrTruthy (get_deployment_status mr).error ||
       optStrTruthy (get_deployment_status wr).error)) := by
  exact ⟨fun msg => rfl, rfl, rfl, rfl⟩

/-- C8: the master URL and master UI URL returned by a status query are
non-null exactly when the master deployment's `ready_replicas` count is
positive, and they do not depend on the worker read's outcome. -/
theorem C8_master_url_iff_ready (mn ns : String) (mr wr : ReadResult) :
    ((get_cluster_status mn ns mr wr).master_url ≠ none ↔
      0 < (get_cluster_status mn ns mr wr).master.ready_replicas) ∧
    ((get_cluster_status mn ns mr wr).master_ui_url ≠ none ↔
      0 < (get_cluster_status mn ns mr wr).master.ready_replicas) ∧
    (∀ wr2,
      (get_cluster_status mn ns mr wr).master_url =
        (get_cluster_status mn ns mr wr2).master_url ∧
      (get_cluster_status mn ns mr wr).master_ui_url =
        (get_cluster_status mn ns mr wr2).master_ui_url) := by
  by_cases h : 0 < (get_deployment_status mr).ready_replicas
  · refine ⟨?_, ?_, ?_⟩
    · simp [get_cluster_status, h]
    · simp [get_cluster_status, h]
    · intro wr2
      simp [get_cluster_status]
  · refine ⟨?_, ?_, ?_⟩
    · simp [get_cluster_status, Nat.not_lt.mp h, h]
    · simp [get_cluster_status, Nat.not_lt.mp h, h]
    · intro wr2
      simp [get_cluster_status]

/-- `SparkClusterCreateResponse` pydantic model.  Modelled from the spec:
`src/service/models.py` is not part of the supplied sources; fields follow
the constructor call at src/spark_manager.py lines 192-196. -/
structure SparkClusterCreateResponse where
  cluster_id : String
  master_url : String
  master_ui_url : String
deriving DecidableEq, Repr

/-- `KubeSparkManager.create_cluster` (src/spark_manager.py lines 158-196).
Reconciles the master deployment, then the master service, then the worker
deployment; an uncaught error from any step propagates and stops the rest
(there is no rollback code).  Each reconciliation consumes its own oracle;
the returned trace concatenates the per-resource traces of the steps that
ran. -/
def create_cluster (cid mn wn ns : String)
    (masterDep masterSvc workerDep : ReconcileOracle) :
    List K8sOp × Except Nat SparkClusterCreateResponse :=
  match create_or_replace_deployment mn masterDep with
  | (t1, .error s) => (t1, .error s)
  | (t1, .ok _) =>
    match create_or_replace_service mn masterSvc with
    | (t2, .error s) => (t1 ++ t2, .error s)
    | (t2, .ok _) =>
      match create_or_replace_deployment wn workerDep with
      | (t3, .error s) => (t1 ++ t2 ++ t3, .error s)
      | (t3, .ok _) =>
        (t1 ++ t2 ++ t3,
          .ok { cluster_id := cid
                master_url := "spark://" ++ mn ++ "." ++ ns ++ ":7077"
                master_ui_url := "http://" ++ mn ++ "." ++ ns ++ ":8090" })

/-- Helper: every operation a deployment reconciliation attempts is a
create or a delete of its own deployment name. -/
theorem create_or_replace_deployment_ops (n : String) (o : ReconcileOracle) :
    ∀ op ∈ (create_or_replace_deployment n o).1,
      op = .createDeployment n ∨ op = .deleteDeployment n := by
  obtain ⟨c1, d, c2⟩ := o
  cases c1 with
  | ok => simp [create_or_replace_deployment]
  | apiErr s =>
    by_cases h : s = 409
    · cases d with
      | ok =>
        cases c2 <;> simp [create_or_replace_deployment, h]
      | apiErr ds => simp [create_or_replace_deployment, h]
    · simp [create_or_replace_deployment, h]

/-- Helper: every operation a service reconciliation attempts is a create
or a delete of its own service name. -/
theorem create_or_replace_service_ops (n : String) (o : ReconcileOracle) :
    ∀ op ∈ (create_or_replace_service n o).1,
      op = .createService n ∨ op = .deleteService n := by
  obtain ⟨c1, d, c2⟩ := o
  cases c1 with
  | ok => simp [create_or_replace_service]
  | apiErr s =>
    by_cases h : s = 409
    · cases d with
      | ok =>
        cases c2 <;> simp [create_or_replace_service, h]
      | apiErr ds => simp [create_or_replace_service, h]
    · simp [create_or_replace_service, h]

/-- C9: cluster creation reconciles the master deployment, then the master
service, then the worker deployment, in that order (the trace is the
concatenation of their traces, cut at the first failing step, whose error
propagates); when both master steps succeed and the worker step fails, the
worker's error propagates, the trace still contains every master operation
performed, and no operation after the master steps touches anything but the
worker deployment — the created master resources are left in place. -/
theorem C9_create_order_no_rollback (cid mn wn ns : String)
    (om os ow : ReconcileOracle) :
    (∀ s, (create_or_replace_deployment mn om).2 = .error s →
      create_cluster cid mn wn ns om os ow =
        ((create_or_replace_deployment mn om).1, .error s)) ∧
    (∀ s, (create_or_replace_deployment mn om).2 = .ok () →
      (create_or_replace_service mn os).2 = .error s →
      create_cluster cid mn wn ns om os ow =
        ((create_or_replace_deployment mn om).1 ++
         (create_or_replace_service mn os).1, .error s)) ∧
    ((create_or_replace_deployment mn om).2 = .ok () →
      (create_or_replace_service mn os).2 = .ok () →
      (create_cluster cid mn wn ns om os ow).1 =
        (create_or_replace_deployment mn om).1 ++
        (create_or_replace_service mn os).1 ++
        (create_or_replace_deployment wn ow).1 ∧
      (∀ s, (create_or_replace_deployment wn ow).2 = .error s →
        (create_cluster cid mn wn ns om os ow).2 = .error s) ∧
      (∀ op ∈ (create_or_replace_deployment wn ow).1,
        op = .createDeployment wn ∨ op = .deleteDeployment wn)) := by
  rcases he1 : create_or_replace_deployment mn om with ⟨t1, r1⟩
  rcases he2 : create_or_replace_service mn os with ⟨t2, r2⟩
  rcases he3 : create_or_replace_deployment wn ow with ⟨t3, r3⟩
  refine ⟨?_, ?_, ?_⟩
  · rintro s hs
    simp only at hs
    subst hs
    simp [create_cluster, he1]
  · rintro s h1 hs
    simp only at h1 hs
    subst h1
    subst hs
    simp [create_cluster, he1, he2]
  · rintro h1 h2
    simp only at h1 h2
    subst h1
    subst h2
    cases r3 with
    | error s =>
      refine ⟨by simp [create_cluster, he1, he2, he3], ?_, ?_⟩
      · rintro s2 hs2
        simp only [Except.error.injEq] at hs2
        subst hs2
        simp [create_cluster, he1, he2, he3]
      · have := create_or_replace_deployment_ops wn ow
        rw [he3] at this
        exact this
    | ok u =>
      refine ⟨by simp [create_cluster, he1, he2, he3], ?_, ?_⟩
      · rintro s2 hs2
        simp at hs2
      · have := create_or_replace_deployment_ops wn ow
        rw [he3] at this
        exact this

/-- Witness for C9: master deployment and service reconcile cleanly, the
worker create fails with 500 — the run's trace is the three creates and the
error is the worker's 500. -/
theorem C9_witness :
    (create_cluster "cid" "spark-master-alice" "spark-worker-alice" "ns"
      ⟨.ok, .ok, .ok⟩ ⟨.ok, .ok, .ok⟩ ⟨.apiErr 500, .ok, .ok⟩).1 =
      [.createDeployment "spark-master-alice", .createService "spark-master-alice",
       .createDeployment "spark-worker-alice"] ∧
    (create_cluster "cid" "spark-master-alice" "spark-worker-alice" "ns"
      ⟨.ok, .ok, .ok⟩ ⟨.ok, .ok, .ok⟩ ⟨.apiErr 500, .ok, .ok⟩).2 =
      .error 500 := by
  have h := (C9_create_order_no_rollback "cid" "spark-master-alice"
    "spark-worker-alice" "ns" ⟨.ok, .ok, .ok⟩ ⟨.ok, .ok, .ok⟩
    ⟨.apiErr 500, .ok, .ok⟩).2.2 rfl rfl
  exact ⟨h.1, h.2.1 500 rfl⟩

/-- `str.lower` on one character, for the ASCII range (the usernames in
question are ASCII identifiers): map an uppercase ASCII letter to its
lowercase counterpart, leave everything else unchanged. -/
def charLower (c : Char) : Char :=
  if Char.ofNat 65 <= c && c <= Char.ofNat 90 then Char.ofNat (c.toNat + 32)
  else c

/-- `str.lower` (ASCII range): lowercase every character. -/
def strLower (s : String) : String := String.mk (s.toList.map charLower)

/-- `KubeSparkManager.__init__` (src/spark_manager.py line 143):
`self.cluster_id = f"spark-{username.lower()}-{str(uuid.uuid4())[:8]}"`.
The random suffix (the first 8 characters of a uuid4 string, which are
lowercase hex digits) is passed in as a parameter. -/
def cluster_id (username suffix : String) : String :=
  "spark-" ++ strLower username ++ "-" ++ suffix

/-- `KubeSparkManager.__init__` (line 146):
`self.master_name = f"spark-master-{username.lower()}"`. -/
def master_name (username : String) : String :=
  "spark-master-" ++ strLower username

/-- `KubeSparkManager.__init__` (line 147):
`self.worker_name = f"spark-worker-{username.lower()}"`. -/
def worker_name (username : String) : String :=
  "spark-worker-" ++ strLower username

/-- Character allowed in a sanitized name fragment: lowercase ASCII
letter, digit, hyphen or dot. -/
def isAllowedChar (c : Char) : Bool :=
  (Char.ofNat 97 ≤ c && c ≤ Char.ofNat 122) ||
  (Char.ofNat 48 ≤ c && c ≤ Char.ofNat 57) || c = Char.ofNat 45 ||
  c = Char.ofNat 46

/-- Collapse every run of consecutive hyphens to a single hyphen. -/
def collapseDashes : List Char → List Char
  | [] => []
  | c :: cs =>
    match collapseDashes cs with
    | [] => [c]
    | d :: ds =>
      if c = Char.ofNat 45 && d = Char.ofNat 45 then d :: ds else c :: d :: ds

/-- Character stripped from the ends of a sanitized fragment: hyphen or
dot. -/
def isStripChar (c : Char) : Bool :=
  c = Char.ofNat 45 || c = Char.ofNat 46

/-- Modelled from the spec: `sanitize_k8s_name` — restrict to lowercase
alphanumerics, hyphen and dot; collapse any run of disallowed characters
(underscores included) to a single hyphen; strip leading/trailing hyphens
and dots; truncate to 253 characters.  The function is imported from
`src.spark_manager` by the repository's tests (tests/test_spark_manager.py)
but is absent from the supplied `src/spark_manager.py`, so its behavior is
taken from the spec's NameSanitizer section, which the sanitizer tests in
the repository mirror. -/
def sanitize_k8s_name (s : String) : String :=
  let mapped := (strLower s).toList.map
    (fun c => if isAllowedChar c then c else Char.ofNat 45)
  let collapsed := collapseDashes mapped
  let stripped :=
    ((collapsed.dropWhile isStripChar).reverse.dropWhile isStripChar).reverse
  String.mk (stripped.take 253)

/-- C4 (code bug): the controller derives its three stable names from the
raw lowercased username, not the sanitized one.  At username `"test_user"`
the code produces `"spark-master-test_user"` / `"spark-worker-test_user"` /
`"spark-test_user-<suffix>"`, while the sanitized username is
`"test-user"`, so every claimed equation with the sanitized username fails.
(The repository's own tests require the sanitized form and import
`sanitize_k8s_name` from `src.spark_manager`, where it does not exist.) -/
theorem C4_names_built_from_raw_username :
    master_name "test_user" = "spark-master-test_user" ∧
    worker_name "test_user" = "spark-worker-test_user" ∧
    cluster_id "test_user" "0a1b2c3d" = "spark-test_user-0a1b2c3d" ∧
    sanitize_k8s_name "test_user" = "test-user" ∧
    master_name "test_user" ≠
      "spark-master-" ++ sanitize_k8s_name "test_user" ∧
    worker_name "test_user" ≠
      "spark-worker-" ++ sanitize_k8s_name "test_user" ∧
    cluster_id "test_user" "0a1b2c3d" ≠
      "spark-" ++ sanitize_k8s_name "test_user" ++ "-" ++ "0a1b2c3d" := by
  refine ⟨by decide, by decide, by decide, by decide, by decide, by decide, by decide⟩

end SparkManager
